import Mathlib

/-!
Shallow embedding of `datafusion/functions-aggregate/src/sum.rs`: the SUM
aggregate's return-type policy, state-field declaration, scalar accumulator
(`SumAccumulator`) and sliding-window accumulator (`SlidingSumAccumulator`),
together with proofs of the specification's claims about them.

Machine integers are modelled as bit patterns: an Arrow native value of a
`w`-bit numeric kind is an integer reduced modulo `2 ^ w`, and the wrapping
operations `add_wrapping` / `sub_wrapping` are addition / subtraction
followed by `% 2 ^ w`.  This covers the wrapping kinds Int64 / UInt64
(`w = 64`), Decimal128 (`w = 128`) and Decimal256 (`w = 256`); the signed
reading of a bit pattern is recovered by `toSigned`.  The `u64` row counter
of the sliding accumulator is modelled as an exact `Nat` (its subtraction,
which can underflow in the source, is modelled as a checked subtraction
returning `Option`); wrap-around of the row counter itself at `2 ^ 64` rows
is not modelled.
-/

namespace SumAgg

/-- Arrow logical data types, restricted to the variants inspected by
`sum.rs`.  `Dictionary` keeps only the value type: the key type is never
examined by `coerced_types`. -/
inductive DataType where
  | Int8 | Int16 | Int32 | Int64
  | UInt8 | UInt16 | UInt32 | UInt64
  | Float16 | Float32 | Float64
  | Decimal128 (precision scale : Nat)
  | Decimal256 (precision scale : Nat)
  | Dictionary (value : DataType)
  | Utf8
  | Boolean
  deriving DecidableEq, Repr

/-- `arrow::datatypes::DECIMAL128_MAX_PRECISION`. -/
def DECIMAL128_MAX_PRECISION : Nat := 38

/-- `arrow::datatypes::DECIMAL256_MAX_PRECISION`. -/
def DECIMAL256_MAX_PRECISION : Nat := 76

/-- `DataType::is_signed_integer` (restricted to the variants modelled). -/
def DataType.is_signed_integer : DataType → Bool
  | .Int8 | .Int16 | .Int32 | .Int64 => true
  | _ => false

/-- `DataType::is_unsigned_integer`. -/
def DataType.is_unsigned_integer : DataType → Bool
  | .UInt8 | .UInt16 | .UInt32 | .UInt64 => true
  | _ => false

/-- `DataType::is_floating`. -/
def DataType.is_floating : DataType → Bool
  | .Float16 | .Float32 | .Float64 => true
  | _ => false

/-- The two error constructors this module uses: `not_impl_err!`
("Sum not supported for ...") in `downcast_sum!`, and `exec_err!`
("Sum not supported for ...") in `coerced_types`.  Messages are elided. -/
inductive SumError where
  | notImplemented
  | execution
  deriving DecidableEq, Repr

/-- The inner `coerced_types` function of `Sum::return_type`: dictionaries
unwrap to their value type, decimals widen precision by 10 capped at the
width's maximum (scale unchanged), signed integers map to Int64, unsigned
to UInt64, floats to Float64, and anything else is an execution error. -/
def coerced_types : DataType → Except SumError DataType
  | .Dictionary v => coerced_types v
  | .Decimal128 precision scale =>
      .ok (.Decimal128 (min DECIMAL128_MAX_PRECISION (precision + 10)) scale)
  | .Decimal256 precision scale =>
      .ok (.Decimal256 (min DECIMAL256_MAX_PRECISION (precision + 10)) scale)
  | dt =>
      if dt.is_signed_integer then .ok .Int64
      else if dt.is_unsigned_integer then .ok .UInt64
      else if dt.is_floating then .ok .Float64
      else .error .execution

/-- `Sum::return_type`: the Rust method receives a slice of argument types
and applies `coerced_types` to `arg_types[0]`; the single argument type is
passed directly here. -/
def Sum.return_type (arg0 : DataType) : Except SumError DataType :=
  coerced_types arg0

/-- An Arrow `Field`: name, data type, nullability. -/
structure Field where
  name : String
  data_type : DataType
  nullable : Bool
  deriving DecidableEq, Repr

/-- `datafusion_expr::utils::format_state_name`. -/
def format_state_name (name state_name : String) : String :=
  name ++ "[" ++ state_name ++ "]"

/-- `Sum::state_fields`: a single nullable field named `<name>[sum]` of the
return type, independent of the accumulator variant in use. -/
def Sum.state_fields (name : String) (return_type : DataType) : List Field :=
  [⟨format_state_name name "sum", return_type, true⟩]

/-- One nullable column: each row is `none` (null) or a native value
(the bit pattern of the machine integer). -/
abbrev Batch := List (Option Int)

/-- The non-null values of a column, in order. -/
def nonNullValues (b : Batch) : List Int := b.filterMap id

/-- `values.len() - values.null_count()`: the number of non-null rows. -/
def nonNullCount (b : Batch) : Nat := (nonNullValues b).length

/-- Model of `arrow::compute::sum` for a `w`-bit wrapping numeric kind:
`None` when every element is null (including the empty column), otherwise
the sum of the non-null elements accumulated with `add_wrapping`
(i.e. reduced `% 2 ^ w` at every step). -/
def arrowSum (w : Nat) (b : Batch) : Option Int :=
  match nonNullValues b with
  | [] => none
  | vs => some (vs.foldl (fun acc x => (acc + x) % (2 ^ w : Int)) 0)

/-- The `ScalarValue`s this module produces: a nullable primitive of the
accumulated kind (`ScalarValue::new_primitive::<T>`), or a nullable
unsigned 64-bit value (`self.count.into()`). -/
inductive ScalarValue where
  | primitive (v : Option Int) (dt : DataType)
  | u64 (v : Option Nat)
  deriving DecidableEq, Repr

/-- Whether a scalar value is null. -/
def ScalarValue.is_null : ScalarValue → Bool
  | .primitive none _ => true
  | .u64 none => true
  | _ => false

/-- The native value carried by a scalar value, as a nullable bit pattern. -/
def ScalarValue.toNative : ScalarValue → Option Int
  | .primitive v _ => v
  | .u64 v => v.map Int.ofNat

/-- `SumAccumulator<T>`: incremental SUM.  `sum = none` means no non-null
input has been observed yet. -/
structure SumAccumulator where
  sum : Option Int
  data_type : DataType
  deriving DecidableEq, Repr

/-- `SumAccumulator::new`. -/
def SumAccumulator.new (data_type : DataType) : SumAccumulator :=
  ⟨none, data_type⟩

/-- `SumAccumulator::update_batch`: if the batch has a non-null wrapping sum
`x`, fold it into `sum` with `add_wrapping`, first initialising `sum` to
zero when it was `None` (`get_or_insert(0)`). -/
def SumAccumulator.update_batch (w : Nat) (acc : SumAccumulator)
    (values : Batch) : SumAccumulator :=
  match arrowSum w values with
  | none => acc
  | some x => { acc with sum := some ((acc.sum.getD 0 + x) % (2 ^ w : Int)) }

/-- `SumAccumulator::merge_batch`: literally `self.update_batch(states)`. -/
def SumAccumulator.merge_batch (w : Nat) (acc : SumAccumulator)
    (states : Batch) : SumAccumulator :=
  acc.update_batch w states

/-- `SumAccumulator::evaluate`: `ScalarValue::new_primitive::<T>(self.sum, ..)`. -/
def SumAccumulator.evaluate (acc : SumAccumulator) : ScalarValue :=
  .primitive acc.sum acc.data_type

/-- `SumAccumulator::state`: `vec![self.evaluate()?]`. -/
def SumAccumulator.state (acc : SumAccumulator) : List ScalarValue :=
  [acc.evaluate]

/-- `SlidingSumAccumulator<T>`: SUM over a sliding window, with an explicit
non-null row counter. -/
structure SlidingSumAccumulator where
  sum : Int
  count : Nat
  data_type : DataType
  deriving DecidableEq, Repr

/-- `SlidingSumAccumulator::new`: zero sum, zero count. -/
def SlidingSumAccumulator.new (data_type : DataType) : SlidingSumAccumulator :=
  ⟨0, 0, data_type⟩

/-- `SlidingSumAccumulator::update_batch`: add the batch's non-null row
count to `count`, and its wrapping sum (when present) into `sum`. -/
def SlidingSumAccumulator.update_batch (w : Nat) (acc : SlidingSumAccumulator)
    (values : Batch) : SlidingSumAccumulator :=
  let acc1 := { acc with count := acc.count + nonNullCount values }
  match arrowSum w values with
  | none => acc1
  | some x => { acc1 with sum := (acc1.sum + x) % (2 ^ w : Int) }

/-- `SlidingSumAccumulator::merge_batch`: `states[0]` is a column of partial
sums (folded into `sum` with `add_wrapping`), `states[1]` a column of
partial counts (summed into `count`). -/
def SlidingSumAccumulator.merge_batch (w : Nat) (acc : SlidingSumAccumulator)
    (sums : Batch) (counts : List (Option Nat)) : SlidingSumAccumulator :=
  let acc1 :=
    match arrowSum w sums with
    | none => acc
    | some x => { acc with sum := (acc.sum + x) % (2 ^ w : Int) }
  match counts.filterMap id with
  | [] => acc1
  | cs => { acc1 with count := acc1.count + cs.sum }

/-- `SlidingSumAccumulator::evaluate`: `(self.count != 0).then_some(self.sum)`
as a nullable primitive. -/
def SlidingSumAccumulator.evaluate (acc : SlidingSumAccumulator) : ScalarValue :=
  .primitive (if acc.count ≠ 0 then some acc.sum else none) acc.data_type

/-- `SlidingSumAccumulator::state`: `vec![self.evaluate()?, self.count.into()]`. -/
def SlidingSumAccumulator.state (acc : SlidingSumAccumulator) : List ScalarValue :=
  [acc.evaluate, .u64 (some acc.count)]

/-- `SlidingSumAccumulator::retract_batch`: subtract the batch's wrapping
sum (when present) from `sum` with `sub_wrapping`, then decrement `count`
by the batch's non-null row count.  The `u64` subtraction `self.count -= n`
is modelled as a checked subtraction: `none` models the underflow that the
caller-enforced precondition is meant to exclude. -/
def SlidingSumAccumulator.retract_batch (w : Nat) (acc : SlidingSumAccumulator)
    (values : Batch) : Option SlidingSumAccumulator :=
  let acc1 :=
    match arrowSum w values with
    | none => acc
    | some x => { acc with sum := (acc.sum - x) % (2 ^ w : Int) }
  if nonNullCount values ≤ acc1.count then
    some { acc1 with count := acc1.count - nonNullCount values }
  else none

/-- The five element types accepted by the `downcast_sum!` macro; every
other type hits its `not_impl_err!` arm. -/
def downcast_supported : DataType → Bool
  | .UInt64 | .Int64 | .Float64 => true
  | .Decimal128 _ _ => true
  | .Decimal256 _ _ => true
  | _ => false

/-- `Sum::accumulator`: dispatch through `downcast_sum!`, constructing a
fresh `SumAccumulator` on the five supported kinds. -/
def Sum.accumulator (data_type : DataType) : Except SumError SumAccumulator :=
  if downcast_supported data_type then .ok (SumAccumulator.new data_type)
  else .error .notImplemented

/-- `Sum::create_sliding_accumulator`: dispatch through `downcast_sum!`,
constructing a fresh `SlidingSumAccumulator` on the five supported kinds. -/
def Sum.create_sliding_accumulator (data_type : DataType) :
    Except SumError SlidingSumAccumulator :=
  if downcast_supported data_type then .ok (SlidingSumAccumulator.new data_type)
  else .error .notImplemented

/-- Modelled from the spec: `PrimitiveGroupsAccumulator` is defined in
`physical-expr-common/src/aggregate/groups_accumulator/prim_op.rs`, which is
not part of this source tree.  Per the spec it starts with an empty
per-group totals array and a parallel seen/null tracker; only its
construction is needed here. -/
structure PrimitiveGroupsAccumulator where
  values : List Int
  seen : List Bool
  data_type : DataType
  deriving DecidableEq, Repr

/-- `PrimitiveGroupsAccumulator::new` (modelled from the spec: empty state). -/
def PrimitiveGroupsAccumulator.new (data_type : DataType) :
    PrimitiveGroupsAccumulator :=
  ⟨[], [], data_type⟩

/-- `Sum::create_groups_accumulator`: dispatch through `downcast_sum!`,
constructing a `PrimitiveGroupsAccumulator` on the five supported kinds. -/
def Sum.create_groups_accumulator (data_type : DataType) :
    Except SumError PrimitiveGroupsAccumulator :=
  if downcast_supported data_type then
    .ok (PrimitiveGroupsAccumulator.new data_type)
  else .error .notImplemented

/-- Read a `w`-bit pattern as a signed (two's-complement) integer. -/
def toSigned (w : Nat) (x : Int) : Int :=
  let m := x % (2 ^ w : Int)
  if m < 2 ^ (w - 1) then m else m - 2 ^ w

/-- Characterization used only in theorem statements: the element types on
which `coerced_types` succeeds (numerics, decimals, dictionaries over
them). -/
def isCoercibleNumeric : DataType → Bool
  | .Dictionary v => isCoercibleNumeric v
  | .Decimal128 _ _ => true
  | .Decimal256 _ _ => true
  | dt => dt.is_signed_integer || dt.is_unsigned_integer || dt.is_floating

/-! ## Arithmetic and normal-form lemmas -/

lemma emod_emod (a M : Int) : a % M % M = a % M :=
  Int.emod_emod_of_dvd a dvd_rfl

lemma emod_add_emod_eq (a b M : Int) : (a % M + b % M) % M = (a + b) % M :=
  (Int.add_emod a b M).symm

lemma add_emod_right_eq (a b M : Int) : (a + b % M) % M = (a + b) % M := by
  rw [Int.add_emod, emod_emod, ← Int.add_emod]

lemma sub_emod_right_eq (a b M : Int) : (a - b % M) % M = (a - b) % M := by
  rw [Int.sub_emod, emod_emod, ← Int.sub_emod]

lemma foldl_addWrap (M : Int) (l : List Int) :
    ∀ a : Int, l.foldl (fun acc x => (acc + x) % M) (a % M) = (a + l.sum) % M := by
  induction l with
  | nil => intro a; simp
  | cons x xs ih =>
    intro a
    have h1 : (a % M + x) % M = (a + x) % M := by
      rw [Int.add_emod, emod_emod, ← Int.add_emod]
    calc (x :: xs).foldl (fun acc x => (acc + x) % M) (a % M)
        = xs.foldl (fun acc x => (acc + x) % M) ((a + x) % M) := by
          simp [List.foldl_cons, h1]
      _ = (a + x + xs.sum) % M := ih (a + x)
      _ = (a + (x :: xs).sum) % M := by rw [List.sum_cons]; ring_nf

lemma arrowSum_eq (w : Nat) (b : Batch) :
    arrowSum w b =
      if nonNullValues b = [] then none
      else some ((nonNullValues b).sum % (2 ^ w : Int)) := by
  unfold arrowSum
  cases h : nonNullValues b with
  | nil => simp
  | cons v vs =>
    have h0 : (0 : Int) = 0 % (2 ^ w : Int) := (Int.zero_emod _).symm
    simp only [if_neg (by simp : v :: vs ≠ [])]
    rw [h0, foldl_addWrap]
    simp

lemma nonNullValues_append (b1 b2 : Batch) :
    nonNullValues (b1 ++ b2) = nonNullValues b1 ++ nonNullValues b2 := by
  simp [nonNullValues]

/-- Normal form of `SumAccumulator.update_batch`. -/
lemma scalar_update_batch_eq (w : Nat) (acc : SumAccumulator) (B : Batch) :
    acc.update_batch w B =
      if nonNullValues B = [] then acc
      else { acc with
             sum := some ((acc.sum.getD 0 + (nonNullValues B).sum) % (2 ^ w : Int)) } := by
  unfold SumAccumulator.update_batch
  rw [arrowSum_eq]
  by_cases h : nonNullValues B = [] <;> simp [h, add_emod_right_eq]

/-- Normal form of `SlidingSumAccumulator.update_batch`. -/
lemma sliding_update_batch_eq (w : Nat)
    (acc : SlidingSumAccumulator) (B : Batch) :
    acc.update_batch w B =
      ⟨(if nonNullValues B = [] then acc.sum
        else (acc.sum + (nonNullValues B).sum) % (2 ^ w : Int)),
       acc.count + nonNullCount B, acc.data_type⟩ := by
  unfold SlidingSumAccumulator.update_batch
  rw [arrowSum_eq]
  by_cases h : nonNullValues B = [] <;> simp [h, add_emod_right_eq]

/-- Normal form of `SlidingSumAccumulator.merge_batch`. -/
lemma sliding_merge_batch_eq (w : Nat)
    (acc : SlidingSumAccumulator) (sums : Batch) (counts : List (Option Nat)) :
    acc.merge_batch w sums counts =
      ⟨(if nonNullValues sums = [] then acc.sum
        else (acc.sum + (nonNullValues sums).sum) % (2 ^ w : Int)),
       acc.count + (counts.filterMap id).sum, acc.data_type⟩ := by
  unfold SlidingSumAccumulator.merge_batch
  rw [arrowSum_eq]
  by_cases h : nonNullValues sums = []
  · rw [if_pos h, if_pos h]
    cases hc : counts.filterMap id <;> simp [hc]
  · rw [if_neg h, if_neg h]
    cases hc : counts.filterMap id <;> simp [hc, add_emod_right_eq]

/-- Normal form of `SlidingSumAccumulator.retract_batch`. -/
lemma sliding_retract_batch_eq (w : Nat)
    (acc : SlidingSumAccumulator) (B : Batch) :
    acc.retract_batch w B =
      if nonNullCount B ≤ acc.count then
        some ⟨(if nonNullValues B = [] then acc.sum
               else (acc.sum - (nonNullValues B).sum) % (2 ^ w : Int)),
              acc.count - nonNullCount B, acc.data_type⟩
      else none := by
  unfold SlidingSumAccumulator.retract_batch
  rw [arrowSum_eq]
  by_cases h : nonNullValues B = [] <;>
    by_cases hc : nonNullCount B ≤ acc.count <;>
      simp [h, hc, sub_emod_right_eq]

/-! ## Operation traces on the sliding accumulator -/

/-- One engine call on a sliding accumulator. -/
inductive SlidingOp where
  | update (values : Batch)
  | merge (sums : Batch) (counts : List (Option Nat))
  | retract (values : Batch)

/-- Run a sequence of calls; `none` if some retraction underflows the
`u64` row counter. -/
def applyOps (w : Nat) : SlidingSumAccumulator → List SlidingOp →
    Option SlidingSumAccumulator
  | acc, [] => some acc
  | acc, .update values :: ops => applyOps w (acc.update_batch w values) ops
  | acc, .merge sums counts :: ops =>
      applyOps w (acc.merge_batch w sums counts) ops
  | acc, .retract values :: ops =>
      match acc.retract_batch w values with
      | none => none
      | some acc2 => applyOps w acc2 ops

/-- The caller-enforced retraction precondition along a trace: every
retracted batch has a non-null row count at most the counter at that
point. -/
def validTrace (w : Nat) : SlidingSumAccumulator → List SlidingOp → Bool
  | _, [] => true
  | acc, .update values :: ops => validTrace w (acc.update_batch w values) ops
  | acc, .merge sums counts :: ops =>
      validTrace w (acc.merge_batch w sums counts) ops
  | acc, .retract values :: ops =>
      decide (nonNullCount values ≤ acc.count) &&
      validTrace w ((acc.retract_batch w values).getD acc) ops

/-- Total non-null rows contributed by updates and merges along a trace. -/
def addedCount : List SlidingOp → Nat
  | [] => 0
  | .update values :: ops => nonNullCount values + addedCount ops
  | .merge _ counts :: ops => (counts.filterMap id).sum + addedCount ops
  | .retract _ :: ops => addedCount ops

/-- Total non-null rows retracted along a trace. -/
def retractedCount : List SlidingOp → Nat
  | [] => 0
  | .update _ :: ops => retractedCount ops
  | .merge _ _ :: ops => retractedCount ops
  | .retract values :: ops => nonNullCount values + retractedCount ops

lemma validTrace_applyOps (w : Nat) (ops : List SlidingOp) :
    ∀ acc : SlidingSumAccumulator, validTrace w acc ops = true →
      ∃ acc2, applyOps w acc ops = some acc2 ∧
        acc2.count + retractedCount ops = acc.count + addedCount ops := by
  induction ops with
  | nil =>
    intro acc _
    exact ⟨acc, rfl, by simp [retractedCount, addedCount]⟩
  | cons op ops ih =>
    intro acc h
    cases op with
    | update values =>
      obtain ⟨acc2, h1, h2⟩ :=
        ih (acc.update_batch w values) (by simpa [validTrace] using h)
      refine ⟨acc2, by simpa [applyOps] using h1, ?_⟩
      rw [sliding_update_batch_eq] at h2
      simp [addedCount, retractedCount] at *
      omega
    | merge sums counts =>
      obtain ⟨acc2, h1, h2⟩ :=
        ih (acc.merge_batch w sums counts) (by simpa [validTrace] using h)
      refine ⟨acc2, by simpa [applyOps] using h1, ?_⟩
      rw [sliding_merge_batch_eq] at h2
      simp [addedCount, retractedCount] at *
      omega
    | retract values =>
      simp only [validTrace, Bool.and_eq_true, decide_eq_true_eq] at h
      obtain ⟨hle, hv⟩ := h
      have hr : acc.retract_batch w values =
          some ⟨(if nonNullValues values = [] then acc.sum
                 else (acc.sum - (nonNullValues values).sum) % (2 ^ w : Int)),
                acc.count - nonNullCount values, acc.data_type⟩ := by
        rw [sliding_retract_batch_eq, if_pos hle]
      rw [hr] at hv
      obtain ⟨acc2, h1, h2⟩ := ih _ (by simpa using hv)
      refine ⟨acc2, ?_, ?_⟩
      · simp only [applyOps, hr]
        exact h1
      · simp only [addedCount, retractedCount] at *
        omega

lemma emod_add_left_eq (a b M : Int) : (a % M + b) % M = (a + b) % M := by
  rw [Int.add_emod, emod_emod, ← Int.add_emod]

lemma emod_sub_left_eq (a b M : Int) : (a % M - b) % M = (a - b) % M := by
  rw [Int.sub_emod, emod_emod, ← Int.sub_emod]

lemma nonNullValues_none_single : nonNullValues [(none : Option Int)] = [] := rfl

lemma nonNullValues_some_single (x : Int) : nonNullValues [some x] = [x] := rfl

/-- Merging a one-row batch (one serialized partial state) into a scalar
accumulator. -/
lemma scalar_merge_single (w : Nat) (acc : SumAccumulator)
    (o : Option Int) :
    acc.merge_batch w [o] =
      match o with
      | none => acc
      | some x => { acc with sum := some ((acc.sum.getD 0 + x) % (2 ^ w : Int)) } := by
  cases o with
  | none => rfl
  | some x =>
    show acc.update_batch w [some x] = _
    rw [scalar_update_batch_eq]
    simp [nonNullValues_some_single]

lemma coerced_types_spec (dt : DataType) :
    (coerced_types dt).isOk = isCoercibleNumeric dt ∧
    (isCoercibleNumeric dt = false → coerced_types dt = .error .execution) := by
  induction dt with
  | Int8 => exact ⟨rfl, fun h => nomatch h⟩
  | Int16 => exact ⟨rfl, fun h => nomatch h⟩
  | Int32 => exact ⟨rfl, fun h => nomatch h⟩
  | Int64 => exact ⟨rfl, fun h => nomatch h⟩
  | UInt8 => exact ⟨rfl, fun h => nomatch h⟩
  | UInt16 => exact ⟨rfl, fun h => nomatch h⟩
  | UInt32 => exact ⟨rfl, fun h => nomatch h⟩
  | UInt64 => exact ⟨rfl, fun h => nomatch h⟩
  | Float16 => exact ⟨rfl, fun h => nomatch h⟩
  | Float32 => exact ⟨rfl, fun h => nomatch h⟩
  | Float64 => exact ⟨rfl, fun h => nomatch h⟩
  | Decimal128 p s => exact ⟨rfl, fun h => nomatch h⟩
  | Decimal256 p s => exact ⟨rfl, fun h => nomatch h⟩
  | Dictionary v ih => simpa [coerced_types, isCoercibleNumeric] using ih
  | Utf8 => exact ⟨rfl, fun _ => rfl⟩
  | Boolean => exact ⟨rfl, fun _ => rfl⟩

/-! ## Claims -/

/-- Claim C1: on a fresh scalar accumulator, `update_batch` then `evaluate`
returns the wrapping sum of the batch's non-null elements, and is null
exactly when every element of the batch is null; concretely, an Int64
column `[1, 2, null, 4]` evaluates to 7. -/
theorem scalar_update_evaluate (w : Nat) (dt : DataType) (B : Batch) :
    ((SumAccumulator.new dt).update_batch w B).evaluate
      = ScalarValue.primitive
          (if nonNullValues B = [] then none
           else some ((nonNullValues B).sum % (2 ^ w : Int))) dt ∧
    (nonNullValues B = [] ↔ ∀ v ∈ B, v = none) ∧
    ((SumAccumulator.new DataType.Int64).update_batch 64
        [some 1, some 2, none, some 4]).evaluate
      = ScalarValue.primitive (some 7) DataType.Int64 := by
  refine ⟨?_, ?_, ?_⟩
  · rw [scalar_update_batch_eq]
    by_cases h : nonNullValues B = [] <;>
      simp [h, SumAccumulator.new, SumAccumulator.evaluate]
  · simp [nonNullValues]
  · rfl

/-- Claim C2: for any sliding-accumulator state whose sum is a valid
`w`-bit pattern, retracting a batch immediately after updating with it
restores the state exactly (wrapping subtraction undoes wrapping addition,
and the count returns to its previous value). -/
theorem sliding_update_retract_roundtrip (w : Nat) (s : Int) (c : Nat)
    (dt : DataType) (B : Batch) (h0 : 0 ≤ s) (h1 : s < 2 ^ w) :
    ((⟨s, c, dt⟩ : SlidingSumAccumulator).update_batch w B).retract_batch w B
      = some ⟨s, c, dt⟩ := by
  rw [sliding_update_batch_eq, sliding_retract_batch_eq]
  by_cases h : nonNullValues B = []
  · have hn : nonNullCount B = 0 := by simp [nonNullCount, h]
    simp [h, hn]
  · have hsum : (((s + (nonNullValues B).sum) % (2 ^ w : Int))
        - (nonNullValues B).sum) % (2 ^ w : Int) = s := by
      rw [emod_sub_left_eq]
      simp [Int.emod_eq_of_lt h0 h1]
    simp [h, hsum]

/-- Witness for C2 at a concrete state and batch. -/
theorem sliding_update_retract_roundtrip_witness :
    (((⟨5, 2, DataType.Int64⟩ : SlidingSumAccumulator).update_batch 64
        [some 3, none]).retract_batch 64 [some 3, none])
      = some ⟨5, 2, DataType.Int64⟩ :=
  sliding_update_retract_roundtrip 64 5 2 DataType.Int64 [some 3, none]
    (by norm_num) (by norm_num)

/-- Claim C3: accumulator arithmetic is wrapping and total: `update_batch`
folds the batch's sum in modulo `2 ^ w` without any error path, and
`retract_batch` subtracts modulo `2 ^ w`, failing only on count underflow
(never on numeric overflow); concretely the Int64 maximum plus 1 wraps to
the Int64 minimum. -/
theorem wrapping_arithmetic :
    (∀ (w : Nat) (acc : SumAccumulator) (B : Batch),
        (acc.update_batch w B).sum =
          if nonNullValues B = [] then acc.sum
          else some ((acc.sum.getD 0 + (nonNullValues B).sum) % (2 ^ w : Int))) ∧
    (∀ (w : Nat) (acc : SlidingSumAccumulator) (B : Batch),
        acc.retract_batch w B =
          if nonNullCount B ≤ acc.count then
            some ⟨(if nonNullValues B = [] then acc.sum
                   else (acc.sum - (nonNullValues B).sum) % (2 ^ w : Int)),
                  acc.count - nonNullCount B, acc.data_type⟩
          else none) ∧
    toSigned 64 (2 ^ 63 - 1) = 2 ^ 63 - 1 ∧
    ((SumAccumulator.mk (some (2 ^ 63 - 1)) DataType.Int64).update_batch 64
        [some 1]).sum = some (2 ^ 63) ∧
    toSigned 64 (2 ^ 63) = -(2 ^ 63) := by
  refine ⟨?_, ?_, ?_, ?_, ?_⟩
  · intro w acc B
    rw [scalar_update_batch_eq]
    by_cases h : nonNullValues B = [] <;> simp [h]
  · intro w acc B
    exact sliding_retract_batch_eq w acc B
  · norm_num [toSigned]
  · rfl
  · norm_num [toSigned]

/-- Claim C4: merge shares the update code path, and accumulating a batch
split as `B1 ++ B2` on two accumulators and merging their extracted states
into a third gives the same evaluation as accumulating the whole batch on
one accumulator. -/
theorem scalar_merge_partition (w : Nat) (dt : DataType) (B1 B2 : Batch) :
    (∀ (acc : SumAccumulator) (states : Batch),
        acc.merge_batch w states = acc.update_batch w states) ∧
    (((SumAccumulator.new dt).merge_batch w
          (((SumAccumulator.new dt).update_batch w B1).state.map
            ScalarValue.toNative)).merge_batch w
          (((SumAccumulator.new dt).update_batch w B2).state.map
            ScalarValue.toNative)).evaluate
      = ((SumAccumulator.new dt).update_batch w (B1 ++ B2)).evaluate := by
  refine ⟨fun _ _ => rfl, ?_⟩
  have hstate : ∀ acc : SumAccumulator,
      acc.state.map ScalarValue.toNative = [acc.sum] := fun _ => rfl
  rw [hstate, hstate,
    scalar_update_batch_eq w _ B1, scalar_update_batch_eq w _ B2,
    scalar_update_batch_eq w _ (B1 ++ B2)]
  by_cases h1 : nonNullValues B1 = [] <;> by_cases h2 : nonNullValues B2 = [] <;>
    simp [h1, h2, nonNullValues_append, SumAccumulator.new, SumAccumulator.evaluate,
      scalar_merge_single, emod_emod, emod_add_left_eq, add_emod_right_eq,
      emod_add_emod_eq, List.sum_append]

/-- Claim C5: the decimal return-type rule is
`new_precision = min(width_max, precision + 10)` with scale unchanged, for
both widths; concretely Decimal128(5,2) maps to Decimal128(15,2) and
Decimal128(30,2) maps to Decimal128(38,2), capped at 38 rather than 40. -/
theorem decimal_return_type (p s : Nat) :
    coerced_types (DataType.Decimal128 p s)
      = .ok (DataType.Decimal128 (min 38 (p + 10)) s) ∧
    coerced_types (DataType.Decimal256 p s)
      = .ok (DataType.Decimal256 (min 76 (p + 10)) s) ∧
    Sum.return_type (DataType.Decimal128 5 2) = .ok (DataType.Decimal128 15 2) ∧
    Sum.return_type (DataType.Decimal128 30 2) = .ok (DataType.Decimal128 38 2) :=
  ⟨rfl, rfl, rfl, rfl⟩

/-- Claim C6: for every reachable sliding-accumulator state, `evaluate` is
null exactly when `count = 0`, and otherwise returns the stored sum —
irrespective of whether that sum is zero. -/
theorem sliding_evaluate_null_rule (w : Nat) (dt : DataType)
    (ops : List SlidingOp) (acc : SlidingSumAccumulator)
    (h : applyOps w (SlidingSumAccumulator.new dt) ops = some acc) :
    ((acc.evaluate).is_null = true ↔ acc.count = 0) ∧
    (acc.count ≠ 0 →
      acc.evaluate = ScalarValue.primitive (some acc.sum) acc.data_type) := by
  constructor
  · by_cases hc : acc.count = 0 <;>
      simp [SlidingSumAccumulator.evaluate, ScalarValue.is_null, hc]
  · intro hc
    simp [SlidingSumAccumulator.evaluate, hc]

/-- Witness for C6: the state reached by updating a fresh Int64 sliding
accumulator with `[0]` has sum zero yet evaluates non-null. -/
theorem sliding_evaluate_null_rule_witness :
    (((⟨0, 1, DataType.Int64⟩ : SlidingSumAccumulator).evaluate).is_null = true ↔
        (⟨0, 1, DataType.Int64⟩ : SlidingSumAccumulator).count = 0) ∧
    ((⟨0, 1, DataType.Int64⟩ : SlidingSumAccumulator).count ≠ 0 →
      (⟨0, 1, DataType.Int64⟩ : SlidingSumAccumulator).evaluate
        = ScalarValue.primitive
            (some (⟨0, 1, DataType.Int64⟩ : SlidingSumAccumulator).sum)
            (⟨0, 1, DataType.Int64⟩ : SlidingSumAccumulator).data_type) :=
  sliding_evaluate_null_rule 64 DataType.Int64 [SlidingOp.update [some 0]]
    ⟨0, 1, DataType.Int64⟩ (by rfl)

/-- Claim C9: under the caller-enforced precondition that every retracted
batch's non-null row count is at most the counter at that point, no count
subtraction underflows, and after the whole trace the count is exactly the
number of non-null rows added minus the number retracted (hence never
negative). -/
theorem sliding_count_safety (w : Nat) (dt : DataType) (ops : List SlidingOp)
    (h : validTrace w (SlidingSumAccumulator.new dt) ops = true) :
    ∃ acc, applyOps w (SlidingSumAccumulator.new dt) ops = some acc ∧
      retractedCount ops ≤ addedCount ops ∧
      acc.count = addedCount ops - retractedCount ops := by
  obtain ⟨acc, h1, h2⟩ := validTrace_applyOps w ops _ h
  have hz : (SlidingSumAccumulator.new dt).count = 0 := rfl
  rw [hz] at h2
  exact ⟨acc, h1, by omega, by omega⟩

/-- Witness for C9 on a concrete valid trace (add rows 5 and null, then
retract row 5). -/
theorem sliding_count_safety_witness :
    ∃ acc, applyOps 64 (SlidingSumAccumulator.new DataType.Int64)
        [SlidingOp.update [some 5, none], SlidingOp.retract [some 5]]
        = some acc ∧
      retractedCount [SlidingOp.update [some 5, none], SlidingOp.retract [some 5]]
        ≤ addedCount [SlidingOp.update [some 5, none], SlidingOp.retract [some 5]] ∧
      acc.count =
        addedCount [SlidingOp.update [some 5, none], SlidingOp.retract [some 5]] -
        retractedCount [SlidingOp.update [some 5, none], SlidingOp.retract [some 5]] :=
  sliding_count_safety 64 DataType.Int64
    [SlidingOp.update [some 5, none], SlidingOp.retract [some 5]] (by rfl)

/-- Claim C10: a sliding accumulator serializes its state as exactly
`[evaluate(), count]`, so an empty window (count 0) ships a null partial
sum rather than a zero, and merging that serialized state into any target
accumulator leaves the target unchanged. -/
theorem sliding_state_serialization (w : Nat)
    (acc tgt : SlidingSumAccumulator) :
    acc.state = [acc.evaluate, ScalarValue.u64 (some acc.count)] ∧
    (acc.count = 0 →
      acc.evaluate = ScalarValue.primitive none acc.data_type ∧
      tgt.merge_batch w [ScalarValue.toNative acc.evaluate]
        [some acc.count] = tgt) := by
  refine ⟨rfl, fun h0 => ⟨?_, ?_⟩⟩
  · simp [SlidingSumAccumulator.evaluate, h0]
  · have he : ScalarValue.toNative acc.evaluate = none := by
      simp [SlidingSumAccumulator.evaluate, ScalarValue.toNative, h0]
    rw [he, h0, sliding_merge_batch_eq]
    simp [nonNullValues_none_single]

/-- Witness for C10: a fresh Int64 sliding accumulator (count 0) and the
target state (sum 7, count 3). -/
theorem sliding_state_serialization_witness :
    (SlidingSumAccumulator.new DataType.Int64).state
        = [(SlidingSumAccumulator.new DataType.Int64).evaluate,
           ScalarValue.u64 (some (SlidingSumAccumulator.new DataType.Int64).count)] ∧
    ((SlidingSumAccumulator.new DataType.Int64).evaluate
        = ScalarValue.primitive none
            (SlidingSumAccumulator.new DataType.Int64).data_type ∧
      (⟨7, 3, DataType.Int64⟩ : SlidingSumAccumulator).merge_batch 64
        [ScalarValue.toNative (SlidingSumAccumulator.new DataType.Int64).evaluate]
        [some (SlidingSumAccumulator.new DataType.Int64).count]
        = ⟨7, 3, DataType.Int64⟩) :=
  ⟨(sliding_state_serialization 64 (SlidingSumAccumulator.new DataType.Int64)
      ⟨7, 3, DataType.Int64⟩).1,
   (sliding_state_serialization 64 (SlidingSumAccumulator.new DataType.Int64)
      ⟨7, 3, DataType.Int64⟩).2 rfl⟩

/-- Counterexample to C7 as stated: `Sum::state_fields` declares one field,
while the sliding accumulator's serialized state has two entries — the
declared shape does not depend on (or match) the sliding case. -/
theorem state_fields_shape_counterexample :
    (Sum.state_fields "s" DataType.Int64).length = 1 ∧
    ((SlidingSumAccumulator.new DataType.Int64).state).length = 2 :=
  ⟨rfl, rfl⟩

/-- Claim C7 (amended): the façade always declares a single nullable field
named `<name>[sum]` of the return type; this matches the scalar
accumulator's one-entry state, but the sliding accumulator's state has two
entries, which the declared shape does not cover. -/
theorem state_fields_shape (name : String) (rt : DataType)
    (acc : SumAccumulator) (sacc : SlidingSumAccumulator) :
    Sum.state_fields name rt = [⟨format_state_name name "sum", rt, true⟩] ∧
    acc.state.length = (Sum.state_fields name rt).length ∧
    sacc.state.length = 2 :=
  ⟨rfl, rfl, rfl⟩

/-- Counterexample to C8 as stated: Int8 is outside the five supported
kinds, yet the return-type computation succeeds on it (coercing to Int64);
and on a genuinely unsupported type the return-type computation fails with
an execution error, not a not-implemented error. -/
theorem unsupported_type_counterexample :
    downcast_supported DataType.Int8 = false ∧
    Sum.return_type DataType.Int8 = Except.ok DataType.Int64 ∧
    Sum.return_type DataType.Utf8 = Except.error SumError.execution :=
  ⟨rfl, rfl, rfl⟩

/-- Claim C8 (amended): accumulator construction (plain, grouped, sliding)
fails with a not-implemented error exactly for element types outside the
five supported kinds and succeeds on them; return-type computation succeeds
exactly on the coercible numeric family (integers, floats, decimals, and
dictionaries over them) and fails with an execution error otherwise. -/
theorem sum_dispatch_errors (dt : DataType) :
    (downcast_supported dt = false →
      Sum.accumulator dt = Except.error SumError.notImplemented ∧
      Sum.create_sliding_accumulator dt = Except.error SumError.notImplemented ∧
      Sum.create_groups_accumulator dt = Except.error SumError.notImplemented) ∧
    (downcast_supported dt = true →
      Sum.accumulator dt = Except.ok (SumAccumulator.new dt) ∧
      Sum.create_sliding_accumulator dt
        = Except.ok (SlidingSumAccumulator.new dt) ∧
      Sum.create_groups_accumulator dt
        = Except.ok (PrimitiveGroupsAccumulator.new dt) ∧
      (Sum.return_type dt).isOk = true) ∧
    ((Sum.return_type dt).isOk = isCoercibleNumeric dt) ∧
    (isCoercibleNumeric dt = false →
      Sum.return_type dt = Except.error SumError.execution) := by
  refine ⟨fun h => ?_, fun h => ?_,
    (coerced_types_spec dt).1, (coerced_types_spec dt).2⟩
  · simp [Sum.accumulator, Sum.create_sliding_accumulator,
      Sum.create_groups_accumulator, h]
  · refine ⟨by simp [Sum.accumulator, h],
      by simp [Sum.create_sliding_accumulator, h],
      by simp [Sum.create_groups_accumulator, h], ?_⟩
    have := (coerced_types_spec dt).1
    rw [Sum.return_type, this]
    cases dt <;> simp_all [downcast_supported, isCoercibleNumeric,
      DataType.is_signed_integer, DataType.is_unsigned_integer,
      DataType.is_floating]

/-- Witness for C8 at a concrete unsupported type (Utf8). -/
theorem sum_dispatch_errors_witness :
    Sum.accumulator DataType.Utf8 = Except.error SumError.notImplemented ∧
    Sum.return_type DataType.Utf8 = Except.error SumError.execution :=
  ⟨((sum_dispatch_errors DataType.Utf8).1 rfl).1,
   ((sum_dispatch_errors DataType.Utf8).2.2.2) rfl⟩

end SumAgg
